import Mathlib

/-!
Shallow embedding of `meshinery` (src/meshinery/cli.py), a mesh-network
orchestration tool, together with proofs about its namespace preparation,
link fabrication, workload supervision and cleanup behaviour.

Python dictionaries holding node attributes are modelled as a `Node`
structure; the `networkx.Graph` is a list of nodes (in iteration order of
`graph.nodes`) plus a list of edges (in iteration order of `graph.edges`;
`networkx` yields each undirected edge exactly once).  System-mutating
calls (pyroute2 / subprocess / signal delivery) are recorded as events in
an explicit trace instead of being performed; log statements are recorded
as structured log events carrying the data that the Python format string
interpolates.  Durations are in milliseconds: the Python constant
`DEFAULT_COMMAND_EXIT_TIMEOUT = 0.2` seconds becomes `200`.
-/

namespace Meshinery

/-- A handle to a launched workload process (`NSPopen` result stored in
`node['command_handle']`).  `exitedAtCleanup` is the outcome of the
`cmd_handle.poll() is not None` test at the start of teardown;
`exitedAfterGrace` is the outcome of the `poll() is None` test made after
the grace-period sleep (negated: `true` means the process has exited). -/
structure CmdHandle where
  pid : Nat
  exitedAtCleanup : Bool
  exitedAfterGrace : Bool
  deriving DecidableEq, Repr

/-- One node of the topology: the attribute dictionary of a `networkx`
node.  `ip` and `command`/`commandExitDelay` come from the DOT input;
`netns`, `interfaces` and `commandHandle` are runtime annotations written
by `prepare_namespaces` and `execute`. -/
structure Node where
  name : String
  ip : String
  command : Option String := none
  commandExitDelay : Option Nat := none
  netns : Option String := none
  interfaces : List String := []
  commandHandle : Option CmdHandle := none
  deriving DecidableEq, Repr, Inhabited

/-- The topology graph: `nodes` in the iteration order of `graph.nodes`,
`edges` in the iteration order of `graph.edges` (each undirected edge
listed once, as `networkx` yields it). -/
structure Graph where
  nodes : List Node
  edges : List (String × String)
  deriving DecidableEq, Repr

/-- `graph.node[name]` lookup (first node with the given name). -/
def Graph.node? (g : Graph) (name : String) : Option Node :=
  g.nodes.find? (fun n => n.name == name)

/-- In-place mutation of one node's attribute dictionary. -/
def Graph.updateNode (g : Graph) (name : String) (f : Node → Node) : Graph :=
  { g with nodes := g.nodes.map (fun n => if n.name == name then f n else n) }

/-- A system-mutating call made by the orchestrator. -/
inductive Action where
  | netnsRemove (ns : String)        -- netns.remove(...)
  | netnsCreate (ns : String)        -- NetNS(ns_name) establishing the namespace
  | loUp (ns : String)               -- ipdb.interfaces['lo'].up().commit()
  | sysctlForwarding                 -- subprocess.run(sysctl ... forwarding=1)
  | vethCreate (a b : String)        -- ipdb.create(ifname=..., kind='veth', peer=...)
  | ifSetNs (ifname ns : String)     -- interfaces[x]['net_ns_fd'] = ns; commit()
  | ifAddIp (ifname ip : String)     -- interfaces[x].add_ip(...)
  | ifUp (ifname : String)           -- interfaces[x].up().commit()
  | popen (ns cmd : String)          -- NSPopen(netns, command_line, ...)
  | sigterm (pid : Nat)              -- cmd_handle.terminate()
  | sigkill (pid : Nat)              -- cmd_handle.kill()
  | strayRemove (ifname : String)    -- ipdb.interfaces[if_name].remove()
  deriving DecidableEq, Repr

/-- One entry of the run's trace: either a system-mutating call, a log
statement (carrying the interpolated data), or a non-mutating wait/drain. -/
inductive Event where
  | act (a : Action)
  | logAddNamespace (ns : String)          -- info 'Adding namespace "{}"'
  | logCreatedIfaces (a b : String)        -- debug 'Created %s and %s interfaces'
  | logRemovedNamespace (ns : String)      -- info 'Removed namespace {}'
  | logNsAbsent (ns : String)              -- debug "... doesn't exist - not removing"
  | logWarnNotRunning (node : String)      -- warn '...was not running at cleanup time'
  | logSentSigterm (ns : String) (pid : Nat)   -- debug 'Sent SIGTERM to PID ...'
  | logKilled (node : String) (pid : Nat)      -- debug '... was SIGKILLed ...'
  | logQuitGracefully (node : String) (pid : Nat) -- debug '... quit gracefully ...'
  | logNoCommand (node : String)           -- debug 'No command to stop.'
  | logInterrupt                           -- info 'Received interrupt, cleaning up...'
  | logStrayRemoved (ifname : String)      -- info 'Removed stray interface {}'
  | logStrayAbsent (ifname : String)       -- debug "Stray interface ... doesn't exist"
  | sleep (ms : Nat)                       -- time.sleep(command_exit_delay)
  | drainOutput (pid : Nat)                -- cmd_handle.communicate()
  deriving DecidableEq, Repr

/-- Is this trace entry a system-mutating call?  Log statements, the
grace-period sleep and the pipe drain do not mutate system state. -/
def Event.isMut : Event → Bool
  | .act _ => true
  | _ => false

/-- Is this trace entry a log statement? -/
def Event.isLog : Event → Bool
  | .act _ => false
  | .sleep _ => false
  | .drainOutput _ => false
  | _ => true

def Event.isNetnsRemoveEv : Event → Bool
  | .act (.netnsRemove _) => true
  | _ => false

def Event.isSigtermEv : Event → Bool
  | .act (.sigterm _) => true
  | _ => false

def Event.isSigkillEv : Event → Bool
  | .act (.sigkill _) => true
  | _ => false

def Event.isVethCreateEv : Event → Bool
  | .act (.vethCreate _ _) => true
  | _ => false

/-- Python exceptions that the embedded fragments can raise. -/
inductive PyErr where
  | nameError          -- unbound local variable
  | fileNotFound       -- FileNotFoundError
  deriving DecidableEq, Repr

/-- `'meshinery-{}-{}'.format(instance_id, node_name)`. -/
def nsName (instanceId nodeName : String) : String :=
  "meshinery-" ++ instanceId ++ "-" ++ nodeName

/-- `if instance_id is None: instance_id = os.getpid()` — `format` renders
the pid as its decimal string. -/
def resolveIid (instanceId : Option String) (pid : Nat) : String :=
  instanceId.getD (toString pid)

/-- `DEFAULT_COMMAND_EXIT_TIMEOUT = 0.2` seconds, in milliseconds. -/
def defaultCommandExitTimeoutMs : Nat := 200

/-- Events of one iteration of the namespace-creation loop of
`prepare_namespaces` (cli.py lines 136-153): the `logging.info` happens
unconditionally; namespace establishment, loopback bring-up and the
forwarding sysctl only happen when `not dry_run`.  Note the source
performs no removal of a preexisting namespace here, and the sysctl runs
via plain `subprocess.run`, i.e. in the host namespace. -/
def prepareNodeEvents (dryRun : Bool) (ns : String) : List Event :=
  .logAddNamespace ns ::
    (if dryRun then []
     else [.act (.netnsCreate ns), .act (.loUp ns), .act .sysctlForwarding])

/-- The namespace-creation loop (`for node_name in graph.nodes`), folded
over the snapshot of node names.  In live mode it also writes the runtime
annotations `node['netns'] = ns_name` and `node['interfaces'] = []`. -/
def nsPhase (dryRun : Bool) (iid : String) : Graph → List String → Graph × List Event
  | g, [] => (g, [])
  | g, name :: rest =>
    let ns := nsName iid name
    let g' := if dryRun then g
              else g.updateNode name (fun n => { n with netns := some ns, interfaces := [] })
    let r := nsPhase dryRun iid g' rest
    (r.1, prepareNodeEvents dryRun ns ++ r.2)

/-- One iteration of the veth-creation loop of `prepare_namespaces`
(cli.py lines 156-201) for edge `(node_name, neigh_name)`.  The mutating
block is guarded by `if not dry_run`; the trailing `logging.debug` runs in
both modes.  Dictionary lookups that would raise `KeyError` on a
malformed graph are modelled with `getD` defaults (well-formed inputs,
where every edge endpoint is a node prepared by the first loop, never hit
the defaults). -/
def fabricateEdge (dryRun : Bool) (g : Graph) (e : String × String) : Graph × List Event :=
  let node_iface := e.1 ++ "-" ++ e.2
  let neigh_iface := e.2 ++ "-" ++ e.1
  if dryRun then (g, [.logCreatedIfaces node_iface neigh_iface])
  else
    let node := (g.node? e.1).getD default
    let neigh := (g.node? e.2).getD default
    let evs : List Event :=
      [.act (.vethCreate node_iface neigh_iface),
       .act (.ifSetNs node_iface (node.netns.getD "")),
       .act (.ifAddIp node_iface node.ip),
       .act (.ifUp node_iface),
       .act (.ifAddIp neigh_iface neigh.ip),
       .act (.ifSetNs neigh_iface (neigh.netns.getD "")),
       .act (.ifAddIp neigh_iface neigh.ip),
       .act (.ifUp neigh_iface),
       .logCreatedIfaces node_iface neigh_iface]
    let g' := ((g.updateNode e.1
                 (fun n => { n with interfaces := n.interfaces ++ [node_iface] })).updateNode e.2
                 (fun n => { n with interfaces := n.interfaces ++ [neigh_iface] }))
    (g', evs)

/-- The veth-creation loop (`for node_name, neigh_name in graph.edges`). -/
def edgesPhase (dryRun : Bool) : Graph → List (String × String) → Graph × List Event
  | g, [] => (g, [])
  | g, e :: es =>
    let r := fabricateEdge dryRun g e
    let r' := edgesPhase dryRun r.1 es
    (r'.1, r.2 ++ r'.2)

/-- Result of `prepare_namespaces`: the (in-place mutated) graph, the
trace, and the exception escaping the function, if any. -/
structure PrepResult where
  graph : Graph
  events : List Event
  error : Option PyErr
  deriving DecidableEq, Repr

/-- `prepare_namespaces(graph, dry_run, instance_id)` with the instance id
already resolved.  The trailing `ipdb.release()` (cli.py line 203)
references the local variable `ipdb`, which is only ever bound inside the
`if not dry_run:` branches of the two loops; when neither branch ran —
i.e. under dry-run, or on a graph with no nodes and no edges — the line
raises `NameError`. -/
def prepare_namespaces (g : Graph) (dryRun : Bool) (iid : String) : PrepResult :=
  let names := g.nodes.map (·.name)
  let p1 := nsPhase dryRun iid g names
  let p2 := edgesPhase dryRun p1.1 g.edges
  let ipdbBound := !dryRun && (!names.isEmpty || !g.edges.isEmpty)
  { graph := p2.1
    events := p1.2 ++ p2.2
    error := if ipdbBound then none else some .nameError }

/-- Host-global state relevant to cleanup: which network namespaces and
which host-namespace interfaces currently exist.  `netns.remove` raises
`FileNotFoundError` on an absent namespace; `ipdb.interfaces[x]` raises
`KeyError` on an absent interface — both are caught inside `clean`. -/
structure World where
  namespaces : List String
  hostIfaces : List String
  deriving DecidableEq, Repr

/-- The per-node command-teardown part of `clean` (cli.py lines 77-107):
no stored handle means only a debug log; otherwise the `poll()`-based
warning, then an unconditional `terminate()`, a full `time.sleep` of the
grace period, a `kill()` only if the post-sleep `poll()` still shows the
process alive, and finally `communicate()` to drain the pipes.  The
SIGTERM debug log interpolates `node['netns']`. -/
def teardownEvents (n : Node) : List Event :=
  match n.commandHandle with
  | none => [.logNoCommand n.name]
  | some h =>
    (if h.exitedAtCleanup then [.logWarnNotRunning n.name] else [])
    ++ [.act (.sigterm h.pid),
        .logSentSigterm (n.netns.getD "") h.pid,
        .sleep (n.commandExitDelay.getD defaultCommandExitTimeoutMs)]
    ++ (if h.exitedAfterGrace
        then [.logQuitGracefully n.name h.pid]
        else [.act (.sigkill h.pid), .logKilled n.name h.pid])
    ++ [.drainOutput h.pid]

/-- One iteration of `clean`'s node loop (cli.py lines 64-107): first the
namespace removal attempt — skipped entirely under dry-run, tolerating an
absent namespace via the caught `FileNotFoundError` — and only then the
command teardown (which the source does not guard with `dry_run`). -/
def cleanNode (dryRun : Bool) (iid : String) (w : World) (n : Node) : World × List Event :=
  let ns := nsName iid n.name
  let r :=
    if dryRun then (w, ([] : List Event))
    else if ns ∈ w.namespaces then
      ({ w with namespaces := w.namespaces.erase ns },
       [.act (.netnsRemove ns), .logRemovedNamespace ns])
    else (w, [.logNsAbsent ns])
  (r.1, r.2 ++ teardownEvents n)

/-- `clean`'s node loop folded over the graph's nodes. -/
def cleanNodes (dryRun : Bool) (iid : String) : World → List Node → World × List Event
  | w, [] => (w, [])
  | w, n :: rest =>
    let r := cleanNode dryRun iid w n
    let r' := cleanNodes dryRun iid r.1 rest
    (r'.1, r.2 ++ r'.2)

/-- The stray-interface sweep of `clean` (cli.py lines 110-121), run only
when `strays` is set; note the source does not guard it with `dry_run`.
An absent interface raises `KeyError`, caught and logged at debug. -/
def straySweep : World → List (String × String) → World × List Event
  | w, [] => (w, [])
  | w, e :: es =>
    let ifname := e.1 ++ "-" ++ e.2
    let r :=
      if ifname ∈ w.hostIfaces then
        ({ w with hostIfaces := w.hostIfaces.erase ifname },
         [.act (.strayRemove ifname), .logStrayRemoved ifname])
      else (w, [.logStrayAbsent ifname])
    let r' := straySweep r.1 es
    (r'.1, r.2 ++ r'.2)

/-- `clean(graph, dry_run, instance_id, strays)` with explicit host state
and the pid used when `instance_id is None`. -/
def clean (g : Graph) (dryRun : Bool) (instanceId : Option String) (strays : Bool)
    (pid : Nat) (w : World) : World × List Event :=
  let iid := resolveIid instanceId pid
  let r := cleanNodes dryRun iid w g.nodes
  if strays then
    let r' := straySweep r.1 g.edges
    (r'.1, r.2 ++ r'.2)
  else r

/-- `handle_sigint` (cli.py lines 262-268): logs, runs `clean` on the
shared graph `_MESHINERY_GRAPH` with the stored CLI arguments, then calls
`exit(0)`.  Returns final host state, trace, and the process exit code. -/
def handle_sigint (g : Graph) (dryRun : Bool) (instanceId : Option String) (strays : Bool)
    (pid : Nat) (w : World) : World × List Event × Nat :=
  let r := clean g dryRun instanceId strays pid w
  (r.1, .logInterrupt :: r.2, 0)

/-- Whether the two fallible phases of a run raise: `prepare_namespaces`
(link fabrication; e.g. a pyroute2 error after partial creation) and
`execute` (workload launch; e.g. `FileNotFoundError` re-raised at cli.py
line 254). -/
structure MainEnv where
  prepareRaises : Bool
  executeRaises : Bool
  deriving DecidableEq, Repr

/-- Outcome of `main`: the process exit status, whether the process died
from an exception that escaped `main` (CPython then exits with status 1
after printing a traceback), and how many times `clean` ran. -/
structure MainResult where
  exitCode : Nat
  uncaught : Bool
  cleanCalls : Nat
  deriving DecidableEq, Repr

/-- The control flow of `main` (cli.py lines 271-321) after argument
parsing and graph load: an optional `--clean` pre-clean; the `clean`
command returns immediately (exit 0); `prepare_namespaces` is called
OUTSIDE any try block, so an exception there escapes `main` with no
cleanup; `execute` is wrapped in try/except whose handler runs `clean`
and `sys.exit(1)`; the normal path waits for input, cleans, and falls off
the end of `main` (exit 0). -/
def mainFlow (cleanCmd cleanFlag : Bool) (env : MainEnv) : MainResult :=
  let c0 := if cleanFlag then 1 else 0
  if cleanCmd then { exitCode := 0, uncaught := false, cleanCalls := c0 }
  else if env.prepareRaises then { exitCode := 1, uncaught := true, cleanCalls := c0 }
  else if env.executeRaises then { exitCode := 1, uncaught := false, cleanCalls := c0 + 1 }
  else { exitCode := 0, uncaught := false, cleanCalls := c0 + 1 }

/-! ## Concrete fixtures -/

def mkNode (name ip : String) : Node := { name := name, ip := ip }

/-- The 4-node ring topology of the spec's scenario:
edges n1–n2, n2–n3, n3–n4, n4–n1. -/
def ringGraph : Graph :=
  { nodes := [mkNode "n1" "10.0.0.1/24", mkNode "n2" "10.0.0.2/24",
              mkNode "n3" "10.0.0.3/24", mkNode "n4" "10.0.0.4/24"],
    edges := [("n1", "n2"), ("n2", "n3"), ("n3", "n4"), ("n4", "n1")] }

/-- A minimal topology: one node, no edges. -/
def oneNodeGraph : Graph := { nodes := [mkNode "n1" "10.0.0.1/24"], edges := [] }

def emptyWorld : World := { namespaces := [], hostIfaces := [] }

/-- A node whose workload already exited when cleanup runs. -/
def nodeExitedHandle : Node :=
  { name := "n1", ip := "10.0.0.1/24", command := some "ping 10.0.0.2",
    netns := some "meshinery-t1-n1",
    commandHandle := some { pid := 42, exitedAtCleanup := true, exitedAfterGrace := true } }

/-- A node whose workload is alive at cleanup and exits within the grace period. -/
def nodeLiveHandle : Node :=
  { name := "n1", ip := "10.0.0.1/24", command := some "ping 10.0.0.2",
    netns := some "meshinery-t1-n1",
    commandHandle := some { pid := 43, exitedAtCleanup := false, exitedAfterGrace := true } }

/-- A node whose workload survives the (customised) grace period. -/
def nodeStubbornHandle : Node :=
  { name := "n2", ip := "10.0.0.2/24", command := some "sleep 60",
    commandExitDelay := some 500, netns := some "meshinery-t1-n2",
    commandHandle := some { pid := 44, exitedAtCleanup := false, exitedAfterGrace := false } }

/-- A world in which node n1's namespace exists. -/
def worldT1 : World := { namespaces := ["meshinery-t1-n1"], hostIfaces := [] }

/-! ## C10 — dry-run `prepare_namespaces` raises `NameError` -/

/-- C10: for every graph, calling `prepare_namespaces` with `dry_run=True`
raises an unhandled `NameError` rather than returning normally: the
trailing `ipdb.release()` after the edge loop references a local that is
only bound inside the `if not dry_run:` branches. -/
theorem prepare_dry_run_raises_nameError (g : Graph) (iid : String) :
    (prepare_namespaces g true iid).error = some PyErr.nameError := rfl

/-! ## C9 — namespace identifiers -/

/-- C9: the namespace identifier is the pure function
`'meshinery-{iid}-{node}'` of the instance id and node name: for a fixed
node name it is injective in the instance id; the instance id defaults to
the host pid (rendered in decimal) when unset; and on the 4-node ring
with instance id `"t1"` the namespaces are meshinery-t1-n1 … meshinery-t1-n4. -/
theorem nsName_pure_and_distinct :
    (∀ i1 i2 n : String, i1 ≠ i2 → nsName i1 n ≠ nsName i2 n) ∧
    (∀ pid : Nat, resolveIid none pid = toString pid) ∧
    (∀ s : String, ∀ pid : Nat, resolveIid (some s) pid = s) ∧
    ((ringGraph.nodes.map fun n => nsName (resolveIid (some "t1") 0) n.name)
      = ["meshinery-t1-n1", "meshinery-t1-n2", "meshinery-t1-n3", "meshinery-t1-n4"]) := by
  refine ⟨?_, fun _ => rfl, fun _ _ => rfl, by decide⟩
  intro i1 i2 n hne heq
  apply hne
  have hd := congrArg String.data heq
  simp only [nsName, String.data_append] at hd
  have h1 := List.append_cancel_right (List.append_cancel_right hd)
  have h3 : i1.data = i2.data := List.append_cancel_left h1
  cases i1; cases i2; exact congrArg String.mk h3

/-- Witness for C9 at concrete inputs. -/
theorem nsName_pure_and_distinct_witness :
    nsName "a" "x" ≠ nsName "b" "x" :=
  nsName_pure_and_distinct.1 "a" "b" "x" (by decide)

/-! ## C3 — the interrupt handler -/

/-- C3 counterexample: `handle_sigint` terminates the process with exit
status 0 (`exit(0)`, cli.py line 268), refuting the claimed non-zero exit
status at a concrete input. -/
theorem sigint_exit_nonzero_false :
    ¬ ((handle_sigint oneNodeGraph false (some "t1") false 7 emptyWorld).2.2 ≠ 0) := by
  decide

/-- C3 amended: on an operator-sent signal the handler logs, invokes
`clean` on the single shared Topology reference with the stored CLI
arguments, and then terminates the process with exit status 0 (not a
non-zero status). -/
theorem sigint_cleans_then_exits_zero (g : Graph) (dryRun : Bool) (instanceId : Option String)
    (strays : Bool) (pid : Nat) (w : World) :
    (handle_sigint g dryRun instanceId strays pid w).2.2 = 0 ∧
    (handle_sigint g dryRun instanceId strays pid w).2.1
      = Event.logInterrupt :: (clean g dryRun instanceId strays pid w).2 ∧
    (handle_sigint g dryRun instanceId strays pid w).1
      = (clean g dryRun instanceId strays pid w).1 :=
  ⟨rfl, rfl, rfl⟩

/-! ## C8 — exit codes and cleanup on failure -/

/-- C8 counterexample: when `prepare_namespaces` (link fabrication) fails,
`main` does not attempt cleanup before exiting — the call sits outside the
try block — refuting "cleanup is attempted and the run exits 1" at the
concrete input (no clean command, no `--clean` flag, prepare raises). -/
theorem prepare_failure_skips_cleanup :
    ¬ (1 ≤ (mainFlow false false ⟨true, false⟩).cleanCalls ∧
       (mainFlow false false ⟨true, false⟩).exitCode = 1) := by decide

/-- C8 amended: a workload-launch failure is caught, triggers cleanup and
`sys.exit(1)`; a link-fabrication failure instead escapes `main` uncaught
with no cleanup attempted (the interpreter then exits non-zero); normal
completion and a clean-only run exit with status 0 (having cleaned in the
normal case). -/
theorem main_exit_policy (cleanCmd cleanFlag : Bool) (env : MainEnv) :
    (cleanCmd = true → (mainFlow cleanCmd cleanFlag env).exitCode = 0) ∧
    (cleanCmd = false → env.prepareRaises = false → env.executeRaises = true →
       mainFlow cleanCmd cleanFlag env
         = { exitCode := 1, uncaught := false,
             cleanCalls := (if cleanFlag then 1 else 0) + 1 }) ∧
    (cleanCmd = false → env.prepareRaises = true →
       (mainFlow cleanCmd cleanFlag env).uncaught = true ∧
       (mainFlow cleanCmd cleanFlag env).cleanCalls = (if cleanFlag then 1 else 0)) ∧
    (cleanCmd = false → env.prepareRaises = false → env.executeRaises = false →
       (mainFlow cleanCmd cleanFlag env).exitCode = 0 ∧
       (mainFlow cleanCmd cleanFlag env).cleanCalls = (if cleanFlag then 1 else 0) + 1) := by
  obtain ⟨p, ex⟩ := env
  cases cleanCmd <;> cases cleanFlag <;> cases p <;> cases ex <;> simp [mainFlow]

/-- Witness for C8's amended theorem: launch failure cleans then exits 1. -/
theorem main_exit_policy_witness :
    mainFlow false false ⟨false, true⟩
      = { exitCode := 1, uncaught := false, cleanCalls := 1 } :=
  (main_exit_policy false false ⟨false, true⟩).2.1 rfl rfl rfl

/-! ## C6 — teardown tolerance -/

/-- C6 counterexample: teardown of a handle whose process already exited
still invokes `terminate()` — the warning branch does not skip to the
drain step — refuting "it sends no termination signal to the
already-exited handle" at a concrete node. -/
theorem teardown_exited_still_sigterms :
    Event.act (.sigterm 42) ∈ teardownEvents nodeExitedHandle := by decide

/-- C6 amended: teardown with no stored handle is a no-op (a debug log
only); teardown of a handle whose process already exited logs a warning
but still invokes `terminate()` and sleeps the full grace period before
draining output — it merely never escalates to `kill()`, because the
post-sleep poll shows the process exited. -/
theorem teardown_tolerance (n : Node) (h : CmdHandle)
    (hh : n.commandHandle = some h) (h1 : h.exitedAtCleanup = true)
    (h2 : h.exitedAfterGrace = true) :
    teardownEvents n
      = [.logWarnNotRunning n.name, .act (.sigterm h.pid),
         .logSentSigterm (n.netns.getD "") h.pid,
         .sleep (n.commandExitDelay.getD defaultCommandExitTimeoutMs),
         .logQuitGracefully n.name h.pid, .drainOutput h.pid] ∧
    (∀ m : Node, m.commandHandle = none → teardownEvents m = [.logNoCommand m.name]) := by
  constructor
  · simp [teardownEvents, hh, h1, h2]
  · intro m hm
    simp [teardownEvents, hm]

/-- Witness for C6's amended theorem at a concrete exited handle. -/
theorem teardown_tolerance_witness :
    teardownEvents nodeExitedHandle
      = [.logWarnNotRunning "n1", .act (.sigterm 42),
         .logSentSigterm "meshinery-t1-n1" 42, .sleep 200,
         .logQuitGracefully "n1" 42, .drainOutput 42] :=
  (teardown_tolerance nodeExitedHandle
    { pid := 42, exitedAtCleanup := true, exitedAfterGrace := true } rfl rfl rfl).1

/-! ## C7 — escalation timing -/

/-- C7: for a node whose process is alive when teardown starts, a process
that has exited by the end of the grace-period wait (the node's
`command_exit_delay`, default 200 ms) is never sent `kill()`, and a
process still alive after that wait is sent `kill()` exactly once;
`terminate()` is sent exactly once either way. -/
theorem escalation_timing (n : Node) (h : CmdHandle)
    (hh : n.commandHandle = some h) (hl : h.exitedAtCleanup = false) :
    (h.exitedAfterGrace = true →
       (teardownEvents n).countP Event.isSigkillEv = 0) ∧
    (h.exitedAfterGrace = false →
       (teardownEvents n).countP Event.isSigkillEv = 1) ∧
    (teardownEvents n).countP Event.isSigtermEv = 1 ∧
    Event.sleep (n.commandExitDelay.getD defaultCommandExitTimeoutMs) ∈ teardownEvents n := by
  cases hg : h.exitedAfterGrace <;>
    simp [teardownEvents, hh, hl, hg, Event.isSigkillEv, Event.isSigtermEv]

/-- Witness for C7 at a concrete stubborn handle: exactly one `kill()`. -/
theorem escalation_timing_witness :
    (teardownEvents nodeStubbornHandle).countP Event.isSigkillEv = 1 :=
  (escalation_timing nodeStubbornHandle
    { pid := 44, exitedAtCleanup := false, exitedAfterGrace := false } rfl rfl).2.1 rfl

/-! ## C5 — cleanup ordering per node -/

/-- C5 counterexample: in `clean`'s node loop the namespace removal comes
first and the workload teardown after it — no `terminate()` occurs before
the `netns.remove` attempt — refuting "teardown is performed before the
node's namespace removal" at a concrete node (both events do occur). -/
theorem clean_removal_precedes_teardown :
    ¬ (((cleanNode false "t1" worldT1 nodeLiveHandle).2.takeWhile
          (fun e => !e.isNetnsRemoveEv)).any Event.isSigtermEv = true) ∧
    Event.act (.sigterm 43) ∈ (cleanNode false "t1" worldT1 nodeLiveHandle).2 ∧
    Event.act (.netnsRemove "meshinery-t1-n1")
      ∈ (cleanNode false "t1" worldT1 nodeLiveHandle).2 := by decide

/-- C5 amended: for every node, `clean` performs the namespace-removal
step first (tolerating an absent namespace as a debug-logged success) and
only then the workload-process teardown (which is itself a no-op log when
no process was ever launched); the teardown block never removes a
namespace. -/
theorem clean_node_order (iid : String) (w : World) (n : Node) (h : CmdHandle)
    (hh : n.commandHandle = some h)
    (hns : nsName iid n.name ∈ w.namespaces) :
    (cleanNode false iid w n).2
      = .act (.netnsRemove (nsName iid n.name))
          :: .logRemovedNamespace (nsName iid n.name) :: teardownEvents n ∧
    Event.act (.sigterm h.pid) ∈ teardownEvents n ∧
    (teardownEvents n).countP Event.isNetnsRemoveEv = 0 ∧
    (∀ w' : World, nsName iid n.name ∉ w'.namespaces →
       (cleanNode false iid w' n).2
         = .logNsAbsent (nsName iid n.name) :: teardownEvents n) := by
  refine ⟨?_, ?_, ?_, ?_⟩
  · simp [cleanNode, hns]
  · cases h1 : h.exitedAtCleanup <;> cases hg : h.exitedAfterGrace <;>
      simp [teardownEvents, hh, h1, hg]
  · cases h1 : h.exitedAtCleanup <;> cases hg : h.exitedAfterGrace <;>
      simp [teardownEvents, hh, h1, hg, Event.isNetnsRemoveEv]
  · intro w' hw'
    simp [cleanNode, hw']

/-- Witness for C5's amended theorem at a concrete node and world. -/
theorem clean_node_order_witness :
    (cleanNode false "t1" worldT1 nodeLiveHandle).2
      = .act (.netnsRemove "meshinery-t1-n1")
          :: .logRemovedNamespace "meshinery-t1-n1" :: teardownEvents nodeLiveHandle :=
  (clean_node_order "t1" worldT1 nodeLiveHandle
    { pid := 43, exitedAtCleanup := false, exitedAfterGrace := true } rfl (by decide)).1

/-! ## Helper lemmas about the preparation traces -/

theorem prepareNodeEvents_no_remove (d : Bool) (ns : String) :
    (prepareNodeEvents d ns).countP Event.isNetnsRemoveEv = 0 := by
  cases d <;> simp [prepareNodeEvents, Event.isNetnsRemoveEv]

theorem nsPhase_no_remove (d : Bool) (iid : String) :
    ∀ (names : List String) (g : Graph),
      ((nsPhase d iid g names).2).countP Event.isNetnsRemoveEv = 0 := by
  intro names
  induction names with
  | nil => intro g; simp [nsPhase]
  | cons a rest ih =>
    intro g
    simp only [nsPhase, List.countP_append]
    rw [prepareNodeEvents_no_remove, ih]

theorem fabricateEdge_no_remove (d : Bool) (g : Graph) (e : String × String) :
    ((fabricateEdge d g e).2).countP Event.isNetnsRemoveEv = 0 := by
  cases d <;> simp [fabricateEdge, Event.isNetnsRemoveEv]

theorem edgesPhase_no_remove (d : Bool) :
    ∀ (es : List (String × String)) (g : Graph),
      ((edgesPhase d g es).2).countP Event.isNetnsRemoveEv = 0 := by
  intro es
  induction es with
  | nil => intro g; simp [edgesPhase]
  | cons e rest ih =>
    intro g
    simp only [edgesPhase, List.countP_append]
    rw [fabricateEdge_no_remove, ih]

theorem nsPhase_create_infix (iid : String) :
    ∀ (names : List String) (g : Graph) (name : String), name ∈ names →
      ∃ s1 s2, (nsPhase false iid g names).2
        = s1 ++ [.act (.netnsCreate (nsName iid name)), .act (.loUp (nsName iid name)),
                 .act Action.sysctlForwarding] ++ s2 := by
  intro names
  induction names with
  | nil => intro g name hmem; cases hmem
  | cons a rest ih =>
    intro g name hmem
    rcases List.mem_cons.mp hmem with heq | hmem'
    · subst heq
      refine ⟨[.logAddNamespace (nsName iid name)],
        (nsPhase false iid
          (g.updateNode name fun n => { n with netns := some (nsName iid name),
                                               interfaces := [] }) rest).2, ?_⟩
      simp [nsPhase, prepareNodeEvents]
    · obtain ⟨s1, s2, hs⟩ :=
        ih (g.updateNode a fun n => { n with netns := some (nsName iid a),
                                             interfaces := [] }) name hmem'
      refine ⟨prepareNodeEvents false (nsName iid a) ++ s1, s2, ?_⟩
      simp [nsPhase, hs]

theorem nsPhase_dry_graph (iid : String) :
    ∀ (names : List String) (g : Graph), (nsPhase true iid g names).1 = g := by
  intro names
  induction names with
  | nil => intro g; simp [nsPhase]
  | cons a rest ih => intro g; simpa [nsPhase] using ih g

theorem edgesPhase_dry_graph :
    ∀ (es : List (String × String)) (g : Graph), (edgesPhase true g es).1 = g := by
  intro es
  induction es with
  | nil => intro g; simp [edgesPhase]
  | cons e rest ih => intro g; simpa [edgesPhase, fabricateEdge] using ih g

theorem nsPhase_dry_events (iid : String) :
    ∀ (names : List String) (g : Graph),
      (nsPhase true iid g names).2
        = names.map (fun name => Event.logAddNamespace (nsName iid name)) := by
  intro names
  induction names with
  | nil => intro g; simp [nsPhase]
  | cons a rest ih =>
    intro g
    simp [nsPhase, prepareNodeEvents, ih]

theorem nsPhase_live_filter (iid : String) :
    ∀ (names : List String) (g : Graph),
      ((nsPhase false iid g names).2).filter Event.isLog
        = names.map (fun name => Event.logAddNamespace (nsName iid name)) := by
  intro names
  induction names with
  | nil => intro g; simp [nsPhase]
  | cons a rest ih =>
    intro g
    simp only [nsPhase, List.filter_append]
    rw [ih]
    simp [prepareNodeEvents, Event.isLog]

theorem edgesPhase_dry_events :
    ∀ (es : List (String × String)) (g : Graph),
      (edgesPhase true g es).2
        = es.map (fun e => Event.logCreatedIfaces (e.1 ++ "-" ++ e.2) (e.2 ++ "-" ++ e.1)) := by
  intro es
  induction es with
  | nil => intro g; simp [edgesPhase]
  | cons e rest ih =>
    intro g
    simp [edgesPhase, fabricateEdge, ih]

theorem edgesPhase_live_filter :
    ∀ (es : List (String × String)) (g : Graph),
      ((edgesPhase false g es).2).filter Event.isLog
        = es.map (fun e => Event.logCreatedIfaces (e.1 ++ "-" ++ e.2) (e.2 ++ "-" ++ e.1)) := by
  intro es
  induction es with
  | nil => intro g; simp [edgesPhase]
  | cons e rest ih =>
    intro g
    simp only [edgesPhase, List.filter_append]
    rw [ih]
    simp [fabricateEdge, Event.isLog]

theorem Event.isLog_not_mut (e : Event) : e.isLog = true → e.isMut = false := by
  cases e <;> simp [Event.isLog, Event.isMut]

/-! ## C4 — namespace preparation performs no pre-removal -/

/-- C4 counterexample: a live `prepare_namespaces` run over a one-node
graph never attempts to remove the node's (possibly preexisting)
namespace, refuting "first removes any preexisting namespace of the
computed name before creating a fresh namespace". -/
theorem prepare_never_removes :
    ¬ (Event.act (.netnsRemove (nsName "t1" "n1"))
        ∈ (prepare_namespaces oneNodeGraph false "t1").events) := by decide

/-- C4 amended: namespace preparation performs no namespace removal at
all; for every node it establishes the namespace (`NetNS`), brings up its
loopback interface and runs the IP-forwarding sysctl (via a plain
`subprocess.run`, i.e. in the host), contiguously in that order. -/
theorem prepare_creation_sequence (g : Graph) (iid : String) :
    (prepare_namespaces g false iid).events.countP Event.isNetnsRemoveEv = 0 ∧
    (∀ n ∈ g.nodes, ∃ s1 s2,
       (prepare_namespaces g false iid).events
         = s1 ++ [.act (.netnsCreate (nsName iid n.name)), .act (.loUp (nsName iid n.name)),
                  .act Action.sysctlForwarding] ++ s2) := by
  constructor
  · simp only [prepare_namespaces, List.countP_append]
    rw [nsPhase_no_remove, edgesPhase_no_remove]
  · intro n hn
    have hname : n.name ∈ g.nodes.map (·.name) := List.mem_map_of_mem _ hn
    obtain ⟨s1, s2, hs⟩ := nsPhase_create_infix iid (g.nodes.map (·.name)) g n.name hname
    refine ⟨s1, s2 ++ (edgesPhase false (nsPhase false iid g (g.nodes.map (·.name))).1 g.edges).2, ?_⟩
    simp [prepare_namespaces, hs]

/-- Witness for C4's amended theorem at a concrete graph and node. -/
theorem prepare_creation_sequence_witness :
    ∃ s1 s2, (prepare_namespaces oneNodeGraph false "t1").events
      = s1 ++ [.act (.netnsCreate (nsName "t1" "n1")), .act (.loUp (nsName "t1" "n1")),
               .act Action.sysctlForwarding] ++ s2 :=
  (prepare_creation_sequence oneNodeGraph "t1").2 (mkNode "n1" "10.0.0.1/24") (by decide)

/-! ## C2 — dry-run behaviour -/

/-- C2 counterexample: the dry run does not assign the computed namespace
identifier — `graph.node[...]['netns'] = ns_name` sits inside the
`if not dry_run:` branch — so the dry-run graph annotations differ from
the live run's, refuting dry-run equivalence at a concrete input. -/
theorem dry_run_not_assigning :
    ¬ (((prepare_namespaces oneNodeGraph true "t1").graph.node? "n1").map Node.netns
        = ((prepare_namespaces oneNodeGraph false "t1").graph.node? "n1").map Node.netns) := by
  decide

/-- C2 amended: a dry run of `prepare_namespaces` performs zero
system-mutating calls and emits exactly the log statements of a live run
(in the same order), but it leaves the graph entirely unannotated — the
computed identifiers are not assigned — and then raises `NameError` at
the trailing `ipdb.release()` instead of returning normally. -/
theorem dry_run_behaviour (g : Graph) (iid : String) :
    (prepare_namespaces g true iid).events
      = (prepare_namespaces g false iid).events.filter Event.isLog ∧
    (prepare_namespaces g true iid).events.countP Event.isMut = 0 ∧
    (prepare_namespaces g true iid).graph = g ∧
    (prepare_namespaces g true iid).error = some PyErr.nameError := by
  have hfilter : (prepare_namespaces g true iid).events
      = (prepare_namespaces g false iid).events.filter Event.isLog := by
    simp only [prepare_namespaces, List.filter_append]
    rw [nsPhase_dry_events, edgesPhase_dry_events, nsPhase_live_filter, edgesPhase_live_filter]
  refine ⟨hfilter, ?_, ?_, rfl⟩
  · rw [hfilter, List.countP_eq_zero]
    intro e he
    have hlog : e.isLog = true := List.of_mem_filter he
    simp [Event.isLog_not_mut e hlog]
  · simp only [prepare_namespaces]
    rw [nsPhase_dry_graph, edgesPhase_dry_graph]

/-! ## C1 — link fabrication is not idempotent -/

/-- The ring graph after the live namespace-creation loop. -/
def ringNsDone : Graph :=
  (nsPhase false "t1" ringGraph (ringGraph.nodes.map (·.name))).1

/-- First live pass of the veth-creation loop over the ring's edges. -/
def ringPass1 : Graph × List Event := edgesPhase false ringNsDone ringGraph.edges

/-- Second live pass of the veth-creation loop over the same edges. -/
def ringPass2 : Graph × List Event := edgesPhase false ringPass1.1 ringGraph.edges

/-- C1: the source keeps no connected flag — the comment "If an edge
hasn't been created yet" (cli.py line 162) is followed by no check — so
while a single pass over `graph.edges` creates each of the ring's 4 links
exactly once (networkx yields each undirected edge once), a second pass
over the full edge set re-issues the entire mutating sequence, including
one `ipdb.create` per edge, instead of performing zero system-mutating
calls. -/
theorem fabrication_not_idempotent :
    ringPass1.2.countP Event.isVethCreateEv = 4 ∧
    ringPass2.2.countP Event.isVethCreateEv = 4 ∧
    ringPass2.2.countP Event.isMut ≠ 0 := by decide

end Meshinery
